import Mathlib

/-!
Shallow embedding of the Mali `kbase_tlstream` timeline-stream core
(`kernel/drivers/gpu/arm/bifrost/tl/mali_kbase_tlstream.h`).

The repository ships only the header: the compile-time constants
(`PACKET_SIZE`, `PACKET_COUNT`, `STRLEN_MAX`), the `struct kbase_tlstream`
field declarations, and the declarations of `kbase_tlstream_init`,
`kbase_tlstream_term`, `kbase_tlstream_reset`,
`kbase_tlstream_msgbuf_acquire`, `kbase_tlstream_msgbuf_release` and
`kbase_tlstream_flush_stream`.  The bodies of those functions live in
`mali_kbase_tlstream.c`, which is not part of the repository, so the
operational behaviour below is modelled from the specification document
(acquire/release protocol, overflow/eviction policy, sequence numbering,
autoflush state machine, flush and reset), while the constants and the
field layout are taken from the header itself.

Buffers hold opaque message bytes; a byte is modelled as a `Nat`.
Each buffer additionally carries a ghost list of the messages copied into
it, and the stream carries a ghost log of finalized packets, so that
ordering and recoverability of the drained byte stream can be stated.
-/

namespace Tlstream

/-- The maximum size of a single packet used by timeline, in bytes
(`#define PACKET_SIZE 4096` in the header). -/
def PACKET_SIZE : Nat := 4096

/-- The number of packets used by one timeline stream: 64 when
`CONFIG_MALI_BIFROST_JOB_DUMP` or `CONFIG_MALI_BIFROST_VECTOR_DUMP` is
defined, 32 otherwise (header lines 34-38). -/
def PACKET_COUNT (dump_enabled : Bool) : Nat := if dump_enabled then 64 else 32

/-- The maximum expected length of string in tracepoint descriptor, in bytes
(`#define STRLEN_MAX 64` in the header). -/
def STRLEN_MAX : Nat := 64

/-- Types of streams generated by timeline (`enum tl_stream_type`). -/
inductive tl_stream_type where
  | obj_summary
  | obj
  | aux
deriving DecidableEq

/-- Per-instance fixed configuration: the number of packets in the ring
(`PACKET_COUNT`, resolved at compile time from the kernel configuration) and
the packet-header size reserved out of `PACKET_SIZE` for the framing header.
The spec fixes neither a concrete header size nor one ring size, so both are
parameters here. -/
structure Cfg where
  pc : Nat
  hs : Nat
deriving DecidableEq

/-- One entry of the `buffer` array of `struct kbase_tlstream`:
`size` is the number of payload bytes currently in the buffer (the C field
`atomic_t size`), and `msgs` is a ghost record of the messages copied into
the buffer, in order, used to state recoverability. -/
structure Slot where
  size : Nat
  msgs : List (List Nat)
deriving DecidableEq

/-- A finalized packet as it becomes visible to the consumer: the embedded
sequence number (present exactly when the stream is numbered), the messages
whose bytes the packet carries, and the recorded final payload size. -/
structure Packet where
  seq : Option Nat
  msgs : List (List Nat)
  size : Nat
deriving DecidableEq

/-- The timeline stream state (`struct kbase_tlstream`).  `buffer`, `wbi`,
`rbi`, `numbered` and `autoflush_counter` are the header's fields; the lock
and wait queue are not modelled (operations are already atomic steps here);
`ready_signals` counts ready-to-read notifications delivered to the wait
queue and `log` is the ghost list of packets finalized since the last
reset. -/
structure kbase_tlstream where
  cfg : Cfg
  buffer : List Slot
  wbi : Nat
  rbi : Nat
  numbered : Bool
  autoflush_counter : Int
  ready_signals : Nat
  log : List Packet
deriving DecidableEq

/-- The buffer currently being filled: `buffer[wbi % PACKET_COUNT]`. -/
def write_buffer (s : kbase_tlstream) : Slot :=
  s.buffer.getD (s.wbi % s.cfg.pc) ⟨0, []⟩

/-- Modelled from the spec: `kbase_tlstream_init` (body in the missing
`mali_kbase_tlstream.c`).  All buffers start logically empty, both cursors
start at 0, and the autoflush counter starts negative (IDLE: no data pending
for flush). -/
def kbase_tlstream_init (cfg : Cfg) (numbered : Bool) : kbase_tlstream :=
  { cfg := cfg
    buffer := List.replicate cfg.pc ⟨0, []⟩
    wbi := 0
    rbi := 0
    numbered := numbered
    autoflush_counter := -1
    ready_signals := 0
    log := [] }

/-- Modelled from the spec: `kbase_tlstream_reset` (body in the missing
`mali_kbase_tlstream.c`).  Sets every buffer's filled byte count to 0, sets
`wbi = rbi = 0`, sets the autoflush counter to IDLE; all pending messages
are discarded, so the ghost log of packets finalized since the last reset is
cleared. -/
def kbase_tlstream_reset (s : kbase_tlstream) : kbase_tlstream :=
  { s with
    buffer := List.replicate s.cfg.pc ⟨0, []⟩
    wbi := 0
    rbi := 0
    autoflush_counter := -1
    log := [] }

/-- The packet produced by finalizing the current write buffer: it is
stamped with the sequence number `wbi` when the stream is numbered, and its
final payload size is recorded. -/
def finalize_packet (s : kbase_tlstream) : Packet :=
  { seq := if s.numbered then some s.wbi else none
    msgs := (write_buffer s).msgs
    size := (write_buffer s).size }

/-- Modelled from the spec: the buffer-submit step shared by acquire-side
rotation and flush (the static helper in the missing
`mali_kbase_tlstream.c`).  Finalizes the current write buffer (stamping the
sequence number when numbered and recording the final size), advances `wbi`
by 1, hands out a fresh empty buffer at the new write position, and, if the
ring has become full (`wbi - rbi >= PACKET_COUNT`), advances `rbi` by 1 as
well, silently evicting the oldest unread packet. -/
def msgbuf_submit (s : kbase_tlstream) : kbase_tlstream :=
  { s with
    wbi := s.wbi + 1
    rbi := if s.cfg.pc ≤ s.wbi + 1 - s.rbi then s.rbi + 1 else s.rbi
    buffer := s.buffer.set ((s.wbi + 1) % s.cfg.pc) ⟨0, []⟩
    log := s.log ++ [finalize_packet s] }

/-- Modelled from the spec: reserving `msg` in the current write buffer —
the final step of acquire.  Advances the buffer's filled byte count by the
message size, appends the message to the buffer's ghost message list, and
sets the autoflush counter to 0 (ARMED): activity resets the idle clock. -/
def msgbuf_reserve (s : kbase_tlstream) (msg : List Nat) : kbase_tlstream :=
  { s with
    buffer := s.buffer.set (s.wbi % s.cfg.pc)
      ⟨(write_buffer s).size + msg.length, (write_buffer s).msgs ++ [msg]⟩
    autoflush_counter := 0 }

/-- Modelled from the spec: `kbase_tlstream_msgbuf_acquire` (body in the
missing `mali_kbase_tlstream.c`).  If the message does not fit in the
current write buffer (`size + msg_size > PACKET_SIZE`), the buffer is
submitted (finalize, advance `wbi`, evict on overflow) first; then the
message is reserved in the (possibly fresh) write buffer. -/
def kbase_tlstream_msgbuf_acquire (s : kbase_tlstream) (msg : List Nat) :
    kbase_tlstream :=
  if PACKET_SIZE < (write_buffer s).size + msg.length then
    msgbuf_reserve (msgbuf_submit s) msg
  else
    msgbuf_reserve s msg

/-- The byte offset inside the write buffer at which the acquired message is
stored: the buffer's filled size before the reservation, or 0 when the
acquire rotated to a fresh buffer. -/
def acquire_offset (s : kbase_tlstream) (msg_size : Nat) : Nat :=
  if PACKET_SIZE < (write_buffer s).size + msg_size then 0
  else (write_buffer s).size

/-- Modelled from the spec: acquire together with its debug assertion on the
message size.  The caller's contract is `msg_size <= PACKET_SIZE - hs`
(packet size minus header size); a violation trips the assertion (`none`).
Under the contract the acquire always succeeds, returning the offset of the
reserved region and the new stream state. -/
def msgbuf_acquire_checked (s : kbase_tlstream) (msg : List Nat) :
    Option (Nat × kbase_tlstream) :=
  if msg.length ≤ PACKET_SIZE - s.cfg.hs then
    some (acquire_offset s msg.length, kbase_tlstream_msgbuf_acquire s msg)
  else
    none

/-- Modelled from the spec: `kbase_tlstream_msgbuf_release` (body in the
missing `mali_kbase_tlstream.c`) — releases the guard; no buffer mutation
occurs here. -/
def kbase_tlstream_msgbuf_release (s : kbase_tlstream) : kbase_tlstream := s

/-- Modelled from the spec: `kbase_tlstream_flush_stream` (body in the
missing `mali_kbase_tlstream.c`).  If the current write buffer holds any
bytes it is submitted exactly as on acquire-side rotation and the
ready-to-read target is signalled; flushing an empty write buffer is a
no-op. -/
def kbase_tlstream_flush_stream (s : kbase_tlstream) : kbase_tlstream :=
  if 0 < (write_buffer s).size then
    { msgbuf_submit s with ready_signals := s.ready_signals + 1 }
  else
    s

/-- Modelled from the spec: one expiry of the autoflush timer.  A tick
observing a negative counter (IDLE) does nothing; a tick observing 0
(ARMED) increments the counter to 1 (WARNING); a tick observing 1 — the
second consecutive idle tick — invokes flush and resets the counter to
IDLE. -/
def autoflush_timer_tick (s : kbase_tlstream) : kbase_tlstream :=
  if s.autoflush_counter < 0 then s
  else if 1 ≤ s.autoflush_counter then
    { kbase_tlstream_flush_stream s with autoflush_counter := -1 }
  else
    { s with autoflush_counter := s.autoflush_counter + 1 }

/-- The operations a client may perform on one stream after construction. -/
inductive Op where
  | acquire (msg : List Nat)
  | release
  | flush
  | tick
  | reset
deriving DecidableEq

/-- One operation applied to the stream state. -/
def step (s : kbase_tlstream) : Op → kbase_tlstream
  | .acquire msg => kbase_tlstream_msgbuf_acquire s msg
  | .release => kbase_tlstream_msgbuf_release s
  | .flush => kbase_tlstream_flush_stream s
  | .tick => autoflush_timer_tick s
  | .reset => kbase_tlstream_reset s

/-- A sequence of operations applied in order. -/
def run (s : kbase_tlstream) (ops : List Op) : kbase_tlstream :=
  ops.foldl step s

/-- The k-th packet finalized since the last reset carries sequence number k
(when the stream is numbered; no number otherwise), and `wbi` equals the
number of packets finalized so far. -/
def SeqInv (s : kbase_tlstream) : Prop :=
  s.wbi = s.log.length ∧
  ∀ (k : Nat) (p : Packet),
    s.log[k]? = some p → p.seq = if s.numbered then some k else none

/-- The read cursor never passes the write cursor and the number of
finalized-but-undrained packets never exceeds the ring capacity. -/
def CurInv (s : kbase_tlstream) : Prop :=
  s.rbi ≤ s.wbi ∧ s.wbi - s.rbi ≤ s.cfg.pc

/-- Total byte size of a list of messages. -/
def msgsSize (ms : List (List Nat)) : Nat := (ms.map List.length).sum

/-- Abstract packing state: the message contents of the packets finalized so
far, in order, and the messages of the still-active packet. -/
structure SplitSt where
  fin : List (List (List Nat))
  cur : List (List Nat)
deriving DecidableEq

/-- Modelled from the spec: the packet-boundary policy in isolation.  A
message starts a fresh packet exactly when it does not fit into the active
one (`filled + requested > PACKET_SIZE`); otherwise it is appended to the
active packet.  This is the reference packing against which the stream is
compared. -/
def splitStep (st : SplitSt) (m : List Nat) : SplitSt :=
  if PACKET_SIZE < msgsSize st.cur + m.length then ⟨st.fin ++ [st.cur], [m]⟩
  else ⟨st.fin, st.cur ++ [m]⟩

/-- The reference packing of an append-ordered message sequence, starting
from an empty stream. -/
def splitPolicy (msgs : List (List Nat)) : SplitSt :=
  msgs.foldl splitStep ⟨[], []⟩

/-- Correspondence between a stream state and the abstract packing state:
the ghost log's message contents are the finalized packets of the packing,
the active write buffer holds the current packet's messages, and its filled
byte count is their total size. -/
def Corr (s : kbase_tlstream) (st : SplitSt) : Prop :=
  s.buffer.length = s.cfg.pc ∧
  s.log.map Packet.msgs = st.fin ∧
  (write_buffer s).msgs = st.cur ∧
  (write_buffer s).size = msgsSize st.cur

/-- The modulus of the 32-bit counters declared `atomic_t` in the header. -/
def UINT32_MOD : Nat := 2 ^ 32

/-- One cursor advance (`atomic_inc`) on a 32-bit counter. -/
def inc32 (x : Nat) : Nat := (x + 1) % UINT32_MOD

/-- The 32-bit unsigned difference `wbi - rbi` as computed on the declared
fixed-width counters, used by the fullness comparison. -/
def sub32 (w r : Nat) : Nat :=
  (w % UINT32_MOD + (UINT32_MOD - r % UINT32_MOD)) % UINT32_MOD

/-! ### Basic structural lemmas -/

theorem getD_set_self {α : Type} (l : List α) (i : Nat) (a d : α) (h : i < l.length) :
    (l.set i a).getD i d = a := by
  simp [List.getD_eq_getElem?_getD, List.getElem?_set_self, h]

theorem getD_replicate_self {α : Type} (n i : Nat) (a d : α) (h : i < n) :
    (List.replicate n a).getD i d = a := by
  simp [List.getD_eq_getElem?_getD, List.getElem?_replicate, h]

theorem acquire_cfg (s : kbase_tlstream) (m : List Nat) :
    (kbase_tlstream_msgbuf_acquire s m).cfg = s.cfg := by
  unfold kbase_tlstream_msgbuf_acquire
  split <;> rfl

theorem flush_cfg (s : kbase_tlstream) :
    (kbase_tlstream_flush_stream s).cfg = s.cfg := by
  unfold kbase_tlstream_flush_stream
  split <;> rfl

theorem tick_cfg (s : kbase_tlstream) :
    (autoflush_timer_tick s).cfg = s.cfg := by
  unfold autoflush_timer_tick
  split
  · rfl
  split
  · exact flush_cfg s
  · rfl

theorem step_cfg (s : kbase_tlstream) (op : Op) : (step s op).cfg = s.cfg := by
  cases op with
  | acquire m => exact acquire_cfg s m
  | release => rfl
  | flush => exact flush_cfg s
  | tick => exact tick_cfg s
  | reset => rfl

theorem run_cfg (s : kbase_tlstream) (ops : List Op) : (run s ops).cfg = s.cfg := by
  induction ops generalizing s with
  | nil => rfl
  | cons op ops ih => rw [run, List.foldl_cons, ← run, ih, step_cfg]

theorem acquire_numbered (s : kbase_tlstream) (m : List Nat) :
    (kbase_tlstream_msgbuf_acquire s m).numbered = s.numbered := by
  unfold kbase_tlstream_msgbuf_acquire
  split <;> rfl

theorem flush_numbered (s : kbase_tlstream) :
    (kbase_tlstream_flush_stream s).numbered = s.numbered := by
  unfold kbase_tlstream_flush_stream
  split <;> rfl

theorem tick_numbered (s : kbase_tlstream) :
    (autoflush_timer_tick s).numbered = s.numbered := by
  unfold autoflush_timer_tick
  split
  · rfl
  split
  · exact flush_numbered s
  · rfl

theorem step_numbered (s : kbase_tlstream) (op : Op) :
    (step s op).numbered = s.numbered := by
  cases op with
  | acquire m => exact acquire_numbered s m
  | release => rfl
  | flush => exact flush_numbered s
  | tick => exact tick_numbered s
  | reset => rfl

theorem run_numbered (s : kbase_tlstream) (ops : List Op) :
    (run s ops).numbered = s.numbered := by
  induction ops generalizing s with
  | nil => rfl
  | cons op ops ih => rw [run, List.foldl_cons, ← run, ih, step_numbered]
/-! ### Projection lemmas for the individual operations -/

theorem submit_wbi (s : kbase_tlstream) : (msgbuf_submit s).wbi = s.wbi + 1 := rfl

theorem submit_rbi (s : kbase_tlstream) :
    (msgbuf_submit s).rbi =
      if s.cfg.pc ≤ s.wbi + 1 - s.rbi then s.rbi + 1 else s.rbi := rfl

theorem submit_log (s : kbase_tlstream) :
    (msgbuf_submit s).log = s.log ++ [finalize_packet s] := rfl

theorem submit_cfg (s : kbase_tlstream) : (msgbuf_submit s).cfg = s.cfg := rfl

theorem submit_numbered (s : kbase_tlstream) :
    (msgbuf_submit s).numbered = s.numbered := rfl

theorem submit_buffer (s : kbase_tlstream) :
    (msgbuf_submit s).buffer = s.buffer.set ((s.wbi + 1) % s.cfg.pc) ⟨0, []⟩ := rfl

theorem reserve_wbi (s : kbase_tlstream) (m : List Nat) :
    (msgbuf_reserve s m).wbi = s.wbi := rfl

theorem reserve_rbi (s : kbase_tlstream) (m : List Nat) :
    (msgbuf_reserve s m).rbi = s.rbi := rfl

theorem reserve_log (s : kbase_tlstream) (m : List Nat) :
    (msgbuf_reserve s m).log = s.log := rfl

theorem reserve_cfg (s : kbase_tlstream) (m : List Nat) :
    (msgbuf_reserve s m).cfg = s.cfg := rfl

theorem reserve_numbered (s : kbase_tlstream) (m : List Nat) :
    (msgbuf_reserve s m).numbered = s.numbered := rfl

/-! ### Sequence-numbering invariant

`wbi` counts the packets finalized since the last reset, and the ghost log
records them in order; in a numbered stream the k-th log entry is stamped
with sequence number k. -/

theorem SeqInv_ext {s t : kbase_tlstream} (h : SeqInv s) (hw : t.wbi = s.wbi)
    (hl : t.log = s.log) (hn : t.numbered = s.numbered) : SeqInv t := by
  unfold SeqInv at h ⊢
  rw [hw, hl, hn]
  exact h

theorem submit_SeqInv {s : kbase_tlstream} (h : SeqInv s) :
    SeqInv (msgbuf_submit s) := by
  obtain ⟨hw, hs⟩ := h
  unfold SeqInv
  rw [submit_wbi, submit_log, submit_numbered]
  refine ⟨by simp [hw], ?_⟩
  intro k p hk
  rcases Nat.lt_trichotomy k s.log.length with hlt | heq | hgt
  · rw [List.getElem?_append_left hlt] at hk
    exact hs k p hk
  · subst heq
    rw [List.getElem?_concat_length] at hk
    cases hk
    simp [finalize_packet, hw]
  · rw [List.getElem?_eq_none (by simp; omega)] at hk
    cases hk

theorem flush_SeqInv {s : kbase_tlstream} (h : SeqInv s) :
    SeqInv (kbase_tlstream_flush_stream s) := by
  unfold kbase_tlstream_flush_stream
  split
  · exact SeqInv_ext (submit_SeqInv h) rfl rfl rfl
  · exact h

theorem step_SeqInv {s : kbase_tlstream} (op : Op) (h : SeqInv s) :
    SeqInv (step s op) := by
  cases op with
  | acquire m =>
    show SeqInv (kbase_tlstream_msgbuf_acquire s m)
    unfold kbase_tlstream_msgbuf_acquire
    split
    · exact SeqInv_ext (submit_SeqInv h) rfl rfl rfl
    · exact SeqInv_ext h rfl rfl rfl
  | release => exact h
  | flush => exact flush_SeqInv h
  | tick =>
    show SeqInv (autoflush_timer_tick s)
    unfold autoflush_timer_tick
    split
    · exact h
    split
    · exact SeqInv_ext (flush_SeqInv h) rfl rfl rfl
    · exact SeqInv_ext h rfl rfl rfl
  | reset =>
    show SeqInv (kbase_tlstream_reset s)
    unfold SeqInv kbase_tlstream_reset
    simp

theorem run_SeqInv {s : kbase_tlstream} (ops : List Op) (h : SeqInv s) :
    SeqInv (run s ops) := by
  induction ops generalizing s with
  | nil => exact h
  | cons op ops ih => exact ih (step_SeqInv op h)

theorem init_SeqInv (cfg : Cfg) (numbered : Bool) :
    SeqInv (kbase_tlstream_init cfg numbered) := by
  unfold SeqInv kbase_tlstream_init
  simp

theorem reset_SeqInv (s : kbase_tlstream) : SeqInv (kbase_tlstream_reset s) := by
  unfold SeqInv kbase_tlstream_reset
  simp

/-! ### Cursor invariant -/

theorem CurInv_ext {s t : kbase_tlstream} (h : CurInv s) (hw : t.wbi = s.wbi)
    (hr : t.rbi = s.rbi) (hc : t.cfg = s.cfg) : CurInv t := by
  unfold CurInv at h ⊢
  rw [hw, hr, hc]
  exact h

theorem submit_CurInv {s : kbase_tlstream} (h : CurInv s) :
    CurInv (msgbuf_submit s) := by
  obtain ⟨h1, h2⟩ := h
  unfold CurInv
  rw [submit_wbi, submit_rbi, submit_cfg]
  constructor
  · split <;> omega
  · split <;> omega

theorem flush_CurInv {s : kbase_tlstream} (h : CurInv s) :
    CurInv (kbase_tlstream_flush_stream s) := by
  unfold kbase_tlstream_flush_stream
  split
  · exact CurInv_ext (submit_CurInv h) rfl rfl rfl
  · exact h

theorem step_CurInv {s : kbase_tlstream} (op : Op) (h : CurInv s) :
    CurInv (step s op) := by
  cases op with
  | acquire m =>
    show CurInv (kbase_tlstream_msgbuf_acquire s m)
    unfold kbase_tlstream_msgbuf_acquire
    split
    · exact CurInv_ext (submit_CurInv h) rfl rfl rfl
    · exact CurInv_ext h rfl rfl rfl
  | release => exact h
  | flush => exact flush_CurInv h
  | tick =>
    show CurInv (autoflush_timer_tick s)
    unfold autoflush_timer_tick
    split
    · exact h
    split
    · exact CurInv_ext (flush_CurInv h) rfl rfl rfl
    · exact CurInv_ext h rfl rfl rfl
  | reset =>
    show CurInv (kbase_tlstream_reset s)
    unfold CurInv kbase_tlstream_reset
    simp

theorem run_CurInv {s : kbase_tlstream} (ops : List Op) (h : CurInv s) :
    CurInv (run s ops) := by
  induction ops generalizing s with
  | nil => exact h
  | cons op ops ih => exact ih (step_CurInv op h)

theorem init_CurInv (cfg : Cfg) (numbered : Bool) :
    CurInv (kbase_tlstream_init cfg numbered) := by
  unfold CurInv kbase_tlstream_init
  simp

/-! ### Message packing: recoverability of the drained byte stream -/

theorem msgsSize_append (ms : List (List Nat)) (m : List Nat) :
    msgsSize (ms ++ [m]) = msgsSize ms + m.length := by
  simp [msgsSize]

theorem reserve_buffer (s : kbase_tlstream) (m : List Nat) :
    (msgbuf_reserve s m).buffer =
      s.buffer.set (s.wbi % s.cfg.pc)
        ⟨(write_buffer s).size + m.length, (write_buffer s).msgs ++ [m]⟩ := rfl

theorem write_buffer_reserve (s : kbase_tlstream) (m : List Nat)
    (hpc : 0 < s.cfg.pc) (hlen : s.buffer.length = s.cfg.pc) :
    write_buffer (msgbuf_reserve s m) =
      ⟨(write_buffer s).size + m.length, (write_buffer s).msgs ++ [m]⟩ := by
  show (s.buffer.set (s.wbi % s.cfg.pc) _).getD (s.wbi % s.cfg.pc) ⟨0, []⟩ = _
  exact getD_set_self _ _ _ _ (by rw [hlen]; exact Nat.mod_lt _ hpc)

theorem write_buffer_submit (s : kbase_tlstream)
    (hpc : 0 < s.cfg.pc) (hlen : s.buffer.length = s.cfg.pc) :
    write_buffer (msgbuf_submit s) = ⟨0, []⟩ := by
  show (s.buffer.set ((s.wbi + 1) % s.cfg.pc) ⟨0, []⟩).getD
      ((s.wbi + 1) % s.cfg.pc) ⟨0, []⟩ = _
  exact getD_set_self _ _ _ _ (by rw [hlen]; exact Nat.mod_lt _ hpc)

theorem acquire_Corr {s : kbase_tlstream} {st : SplitSt} (m : List Nat)
    (hpc : 0 < s.cfg.pc) (h : Corr s st) :
    Corr (kbase_tlstream_msgbuf_acquire s m) (splitStep st m) := by
  obtain ⟨hlen, hfin, hcur, hsize⟩ := h
  unfold kbase_tlstream_msgbuf_acquire splitStep
  rw [hsize]
  by_cases hc : PACKET_SIZE < msgsSize st.cur + m.length
  · rw [if_pos hc, if_pos hc]
    have hlen1 : (msgbuf_submit s).buffer.length = (msgbuf_submit s).cfg.pc := by
      rw [submit_buffer, submit_cfg, List.length_set, hlen]
    have hpc1 : 0 < (msgbuf_submit s).cfg.pc := by rw [submit_cfg]; exact hpc
    have hwb : write_buffer (msgbuf_submit s) = ⟨0, []⟩ :=
      write_buffer_submit s hpc hlen
    refine ⟨?_, ?_, ?_, ?_⟩
    · rw [reserve_buffer, List.length_set, reserve_cfg, hlen1, submit_cfg]
    · rw [reserve_log, submit_log, List.map_append, hfin]
      simp [finalize_packet, hcur]
    · rw [write_buffer_reserve _ _ hpc1 hlen1, hwb]
      rfl
    · rw [write_buffer_reserve _ _ hpc1 hlen1, hwb]
      simp [msgsSize]
  · rw [if_neg hc, if_neg hc]
    refine ⟨?_, ?_, ?_, ?_⟩
    · rw [reserve_buffer, List.length_set, reserve_cfg, hlen]
    · rw [reserve_log, hfin]
    · rw [write_buffer_reserve _ _ hpc hlen, hcur]
    · rw [write_buffer_reserve _ _ hpc hlen, hsize, msgsSize_append]

theorem init_Corr (cfg : Cfg) (numbered : Bool) (hpc : 0 < cfg.pc) :
    Corr (kbase_tlstream_init cfg numbered) ⟨[], []⟩ := by
  have hwb : write_buffer (kbase_tlstream_init cfg numbered) = ⟨0, []⟩ := by
    show (List.replicate cfg.pc (⟨0, []⟩ : Slot)).getD (0 % cfg.pc) ⟨0, []⟩
      = (⟨0, []⟩ : Slot)
    exact getD_replicate_self _ _ _ _ (Nat.mod_lt _ hpc)
  refine ⟨by simp [kbase_tlstream_init], rfl, ?_, ?_⟩
  · rw [hwb]
  · rw [hwb]; rfl

theorem runAcquires_Corr (msgs : List (List Nat)) :
    ∀ {s : kbase_tlstream} {st : SplitSt}, 0 < s.cfg.pc → Corr s st →
      Corr (run s (msgs.map Op.acquire)) (msgs.foldl splitStep st) := by
  induction msgs with
  | nil => intro s st _ h; exact h
  | cons m ms ih =>
    intro s st hpc h
    show Corr (run (step s (.acquire m)) (ms.map Op.acquire))
      (ms.foldl splitStep (splitStep st m))
    exact ih (by rw [step_cfg]; exact hpc) (acquire_Corr m hpc h)

theorem splitStep_foldl_join (msgs : List (List Nat)) :
    ∀ st : SplitSt,
      (msgs.foldl splitStep st).fin.flatten ++ (msgs.foldl splitStep st).cur =
        st.fin.flatten ++ (st.cur ++ msgs) := by
  induction msgs with
  | nil => intro st; simp
  | cons m ms ih =>
    intro st
    rw [List.foldl_cons, ih]
    unfold splitStep
    by_cases hc : PACKET_SIZE < msgsSize st.cur + m.length
    · rw [if_pos hc]
      simp [List.flatten_append]
    · rw [if_neg hc]
      simp

theorem splitPolicy_join (msgs : List (List Nat)) :
    (splitPolicy msgs).fin.flatten ++ (splitPolicy msgs).cur = msgs := by
  unfold splitPolicy
  rw [splitStep_foldl_join]
  simp

/-! ### Further projection and small-step lemmas -/

theorem reserve_autoflush (s : kbase_tlstream) (m : List Nat) :
    (msgbuf_reserve s m).autoflush_counter = 0 := rfl

theorem reserve_signals (s : kbase_tlstream) (m : List Nat) :
    (msgbuf_reserve s m).ready_signals = s.ready_signals := rfl

theorem submit_autoflush (s : kbase_tlstream) :
    (msgbuf_submit s).autoflush_counter = s.autoflush_counter := rfl

theorem submit_signals (s : kbase_tlstream) :
    (msgbuf_submit s).ready_signals = s.ready_signals := rfl

theorem submit_buffer_length (s : kbase_tlstream) :
    (msgbuf_submit s).buffer.length = s.buffer.length := by
  rw [submit_buffer, List.length_set]

theorem reserve_buffer_length (s : kbase_tlstream) (m : List Nat) :
    (msgbuf_reserve s m).buffer.length = s.buffer.length := by
  rw [reserve_buffer, List.length_set]

theorem write_buffer_init (cfg : Cfg) (numbered : Bool) (hpc : 0 < cfg.pc) :
    write_buffer (kbase_tlstream_init cfg numbered) = ⟨0, []⟩ := by
  show (List.replicate cfg.pc (⟨0, []⟩ : Slot)).getD (0 % cfg.pc) ⟨0, []⟩
    = (⟨0, []⟩ : Slot)
  exact getD_replicate_self _ _ _ _ (Nat.mod_lt _ hpc)

theorem flush_of_pos {s : kbase_tlstream} (h : 0 < (write_buffer s).size) :
    kbase_tlstream_flush_stream s =
      { msgbuf_submit s with ready_signals := s.ready_signals + 1 } := by
  unfold kbase_tlstream_flush_stream
  rw [if_pos h]

theorem flush_of_empty {s : kbase_tlstream} (h : (write_buffer s).size = 0) :
    kbase_tlstream_flush_stream s = s := by
  unfold kbase_tlstream_flush_stream
  simp [h]

theorem tick_of_neg {s : kbase_tlstream} (h : s.autoflush_counter < 0) :
    autoflush_timer_tick s = s := by
  unfold autoflush_timer_tick
  rw [if_pos h]

theorem tick_of_zero {s : kbase_tlstream} (h : s.autoflush_counter = 0) :
    autoflush_timer_tick s = { s with autoflush_counter := 1 } := by
  unfold autoflush_timer_tick
  simp [h]

theorem tick_of_warning {s : kbase_tlstream} (h : s.autoflush_counter = 1) :
    autoflush_timer_tick s =
      { kbase_tlstream_flush_stream s with autoflush_counter := -1 } := by
  unfold autoflush_timer_tick
  simp [h]

theorem step_rbi_le (s : kbase_tlstream) (op : Op) :
    (step s op).rbi ≤ s.rbi + 1 := by
  cases op with
  | acquire m =>
    show (kbase_tlstream_msgbuf_acquire s m).rbi ≤ s.rbi + 1
    unfold kbase_tlstream_msgbuf_acquire
    split
    · rw [reserve_rbi, submit_rbi]
      split <;> omega
    · rw [reserve_rbi]
      omega
  | release => exact Nat.le_succ s.rbi
  | flush =>
    show (kbase_tlstream_flush_stream s).rbi ≤ s.rbi + 1
    unfold kbase_tlstream_flush_stream
    split
    · show (msgbuf_submit s).rbi ≤ s.rbi + 1
      rw [submit_rbi]
      split <;> omega
    · exact Nat.le_succ s.rbi
  | tick =>
    show (autoflush_timer_tick s).rbi ≤ s.rbi + 1
    unfold autoflush_timer_tick
    split
    · exact Nat.le_succ s.rbi
    split
    · show (kbase_tlstream_flush_stream s).rbi ≤ s.rbi + 1
      unfold kbase_tlstream_flush_stream
      split
      · show (msgbuf_submit s).rbi ≤ s.rbi + 1
        rw [submit_rbi]
        split <;> omega
      · exact Nat.le_succ s.rbi
    · exact Nat.le_succ s.rbi
  | reset => exact Nat.zero_le _

theorem acquire_rbi_iff (s : kbase_tlstream) (m : List Nat) :
    (kbase_tlstream_msgbuf_acquire s m).rbi = s.rbi + 1 ↔
      (PACKET_SIZE < (write_buffer s).size + m.length ∧
       s.cfg.pc ≤ s.wbi + 1 - s.rbi) := by
  unfold kbase_tlstream_msgbuf_acquire
  by_cases hc : PACKET_SIZE < (write_buffer s).size + m.length
  · rw [if_pos hc, reserve_rbi, submit_rbi]
    by_cases hf : s.cfg.pc ≤ s.wbi + 1 - s.rbi
    · rw [if_pos hf]
      simp [hc, hf]
    · rw [if_neg hf]
      constructor
      · intro h
        omega
      · rintro ⟨h1, h2⟩
        exact absurd h2 hf
  · rw [if_neg hc, reserve_rbi]
    constructor
    · intro h
      omega
    · rintro ⟨h1, h2⟩
      exact absurd h1 hc

theorem step_buffer_length {s : kbase_tlstream} (op : Op)
    (h : s.buffer.length = s.cfg.pc) : (step s op).buffer.length = s.cfg.pc := by
  cases op with
  | acquire m =>
    show (kbase_tlstream_msgbuf_acquire s m).buffer.length = s.cfg.pc
    unfold kbase_tlstream_msgbuf_acquire
    split
    · rw [reserve_buffer_length, submit_buffer_length, h]
    · rw [reserve_buffer_length, h]
  | release => exact h
  | flush =>
    show (kbase_tlstream_flush_stream s).buffer.length = s.cfg.pc
    unfold kbase_tlstream_flush_stream
    split
    · show (msgbuf_submit s).buffer.length = s.cfg.pc
      rw [submit_buffer_length, h]
    · exact h
  | tick =>
    show (autoflush_timer_tick s).buffer.length = s.cfg.pc
    unfold autoflush_timer_tick
    split
    · exact h
    split
    · show (kbase_tlstream_flush_stream s).buffer.length = s.cfg.pc
      unfold kbase_tlstream_flush_stream
      split
      · show (msgbuf_submit s).buffer.length = s.cfg.pc
        rw [submit_buffer_length, h]
      · exact h
    · exact h
  | reset =>
    show (List.replicate s.cfg.pc (⟨0, []⟩ : Slot)).length = s.cfg.pc
    simp

/-! ### The 32-bit cursor representation

`wbi` and `rbi` are declared `atomic_t` in the header: 32-bit machine
integers.  Cursor advances (`atomic_inc`) and unsigned differences are
therefore computed modulo 2^32. -/

theorem UINT32_MOD_pos : 0 < UINT32_MOD := by
  unfold UINT32_MOD
  positivity

theorem inc32_mod (x : Nat) : inc32 (x % UINT32_MOD) = (x + 1) % UINT32_MOD := by
  unfold inc32
  rw [Nat.mod_add_mod]

theorem inc32_iterate (n x : Nat) :
    inc32^[n] (x % UINT32_MOD) = (x + n) % UINT32_MOD := by
  induction n generalizing x with
  | zero => rfl
  | succ n ih =>
    rw [Function.iterate_succ_apply, inc32_mod, ih (x + 1),
      Nat.add_assoc, Nat.add_comm 1 n]

/-! ### Claim theorems -/

/-- C1: for every sequence of Acquire calls on one stream in which each
message size satisfies the capacity precondition, the bytes of all messages
are recoverable from the finalized packets followed by the active buffer, in
exactly the order the messages were appended, and the packet boundaries are
exactly those dictated by the rotation policy, so a message never spans two
packets. -/
theorem C1_messages_recoverable (cfg : Cfg) (numbered : Bool)
    (msgs : List (List Nat)) (s : kbase_tlstream)
    (hpc : 0 < cfg.pc)
    (hcap : ∀ m ∈ msgs, List.length m ≤ PACKET_SIZE - cfg.hs)
    (hs : s = run (kbase_tlstream_init cfg numbered) (msgs.map Op.acquire)) :
    s.log.map Packet.msgs = (splitPolicy msgs).fin ∧
    (write_buffer s).msgs = (splitPolicy msgs).cur ∧
    (s.log.map Packet.msgs).flatten ++ (write_buffer s).msgs = msgs := by
  subst hs
  unfold splitPolicy
  have h := runAcquires_Corr msgs hpc (init_Corr cfg numbered hpc)
  obtain ⟨_, hfin, hcur, _⟩ := h
  refine ⟨hfin, hcur, ?_⟩
  rw [hfin, hcur]
  have := splitPolicy_join msgs
  unfold splitPolicy at this
  exact this

/-- Witness for C1 at a concrete configuration and message list. -/
theorem C1_messages_recoverable_witness :
    (0 < (⟨2, 32⟩ : Cfg).pc) ∧
    (∀ m ∈ [[1, 2], [3]], List.length m ≤ PACKET_SIZE - (⟨2, 32⟩ : Cfg).hs) ∧
    ((run (kbase_tlstream_init ⟨2, 32⟩ true) ([[1, 2], [3]].map Op.acquire)).log.map
        Packet.msgs = (splitPolicy [[1, 2], [3]]).fin ∧
      (write_buffer (run (kbase_tlstream_init ⟨2, 32⟩ true)
        ([[1, 2], [3]].map Op.acquire))).msgs = (splitPolicy [[1, 2], [3]]).cur ∧
      ((run (kbase_tlstream_init ⟨2, 32⟩ true) ([[1, 2], [3]].map Op.acquire)).log.map
        Packet.msgs).flatten ++
        (write_buffer (run (kbase_tlstream_init ⟨2, 32⟩ true)
          ([[1, 2], [3]].map Op.acquire))).msgs = [[1, 2], [3]]) :=
  ⟨by decide, by decide,
    C1_messages_recoverable ⟨2, 32⟩ true [[1, 2], [3]] _ (by decide) (by decide) rfl⟩

/-- C2: in a stream constructed with numbered mode on, the sequence number
embedded in the k-th packet finalized since construction (or since the last
reset, which clears the log) is exactly k, for every operation sequence —
in particular with no duplicates and no reordering, and evictions (which
touch only `rbi`) cannot disturb it. -/
theorem C2_numbered_sequential (cfg : Cfg) (ops : List Op) (k : Nat) (p : Packet)
    (hk : (run (kbase_tlstream_init cfg true) ops).log[k]? = some p) :
    p.seq = some k := by
  have h := run_SeqInv ops (init_SeqInv cfg true)
  have hn : (run (kbase_tlstream_init cfg true) ops).numbered = true := by
    rw [run_numbered]
    rfl
  have hp := h.2 k p hk
  rw [hn] at hp
  simpa using hp

/-- Witness for C2: after one acquire and one flush the first finalized
packet carries sequence number 0. -/
theorem C2_numbered_sequential_witness :
    ((run (kbase_tlstream_init ⟨2, 32⟩ true) [Op.acquire [5], Op.flush]).log[0]? =
      some ⟨some 0, [[5]], 1⟩) ∧
    (⟨some 0, [[5]], 1⟩ : Packet).seq = some 0 :=
  ⟨by decide,
    C2_numbered_sequential ⟨2, 32⟩ [Op.acquire [5], Op.flush] 0 ⟨some 0, [[5]], 1⟩
      (by decide)⟩

/-- C3: in every reachable state, `rbi ≤ wbi` and `wbi - rbi ≤ PACKET_COUNT`;
no single operation ever advances `rbi` by more than 1; and an acquire
advances `rbi` by exactly 1 precisely when it rotates the write buffer and
the rotation makes the ring full. -/
theorem C3_cursor_invariant (cfg : Cfg) (numbered : Bool) (ops : List Op)
    (s : kbase_tlstream)
    (hs : s = run (kbase_tlstream_init cfg numbered) ops) :
    (s.rbi ≤ s.wbi ∧ s.wbi - s.rbi ≤ cfg.pc) ∧
    (∀ op : Op, (step s op).rbi ≤ s.rbi + 1) ∧
    (∀ m : List Nat,
      (kbase_tlstream_msgbuf_acquire s m).rbi = s.rbi + 1 ↔
        (PACKET_SIZE < (write_buffer s).size + m.length ∧
         cfg.pc ≤ s.wbi + 1 - s.rbi)) := by
  have hcfg : s.cfg = cfg := by
    rw [hs, run_cfg]
    rfl
  have hcur := run_CurInv ops (init_CurInv cfg numbered)
  rw [← hs] at hcur
  obtain ⟨h1, h2⟩ := hcur
  refine ⟨⟨h1, ?_⟩, fun op => step_rbi_le s op, fun m => ?_⟩
  · rw [← hcfg]
    exact h2
  · rw [← hcfg]
    exact acquire_rbi_iff s m

/-- Witness for C3 at the freshly constructed stream. -/
theorem C3_cursor_invariant_witness :
    (run (kbase_tlstream_init ⟨2, 32⟩ true) [] =
      run (kbase_tlstream_init ⟨2, 32⟩ true) []) ∧
    ((run (kbase_tlstream_init ⟨2, 32⟩ true) []).rbi ≤
      (run (kbase_tlstream_init ⟨2, 32⟩ true) []).wbi ∧
     (run (kbase_tlstream_init ⟨2, 32⟩ true) []).wbi -
      (run (kbase_tlstream_init ⟨2, 32⟩ true) []).rbi ≤ (⟨2, 32⟩ : Cfg).pc) :=
  ⟨rfl, (C3_cursor_invariant ⟨2, 32⟩ true [] _ rfl).1⟩

/-- C4: an acquire whose message does not fit the active buffer finalizes
that buffer (stamping the sequence number when numbered and recording its
final size), advances `wbi` by exactly 1, and advances `rbi` by exactly 1
if and only if this makes the ring full — the oldest unread packet is then
dropped silently. -/
theorem C4_acquire_rotation (s : kbase_tlstream) (m : List Nat)
    (h : PACKET_SIZE < (write_buffer s).size + List.length m) :
    (kbase_tlstream_msgbuf_acquire s m).wbi = s.wbi + 1 ∧
    (kbase_tlstream_msgbuf_acquire s m).log =
      s.log ++ [{ seq := if s.numbered then some s.wbi else none,
                  msgs := (write_buffer s).msgs,
                  size := (write_buffer s).size }] ∧
    (s.cfg.pc ≤ s.wbi + 1 - s.rbi →
      (kbase_tlstream_msgbuf_acquire s m).rbi = s.rbi + 1) ∧
    (¬ s.cfg.pc ≤ s.wbi + 1 - s.rbi →
      (kbase_tlstream_msgbuf_acquire s m).rbi = s.rbi) := by
  unfold kbase_tlstream_msgbuf_acquire
  rw [if_pos h]
  refine ⟨rfl, ?_, ?_, ?_⟩
  · rw [reserve_log, submit_log]
    rfl
  · intro hf
    rw [reserve_rbi, submit_rbi, if_pos hf]
  · intro hf
    rw [reserve_rbi, submit_rbi, if_neg hf]

/-- Witness for C4: a full active buffer rotates on the next acquire. -/
theorem C4_acquire_rotation_witness :
    (PACKET_SIZE <
      (write_buffer ⟨⟨2, 32⟩, [⟨4096, []⟩, ⟨0, []⟩], 0, 0, true, 0, 0, []⟩).size +
        List.length [7]) ∧
    (kbase_tlstream_msgbuf_acquire
        ⟨⟨2, 32⟩, [⟨4096, []⟩, ⟨0, []⟩], 0, 0, true, 0, 0, []⟩ [7]).wbi =
      (⟨⟨2, 32⟩, [⟨4096, []⟩, ⟨0, []⟩], 0, 0, true, 0, 0, []⟩ :
        kbase_tlstream).wbi + 1 :=
  ⟨by decide,
    (C4_acquire_rotation ⟨⟨2, 32⟩, [⟨4096, []⟩, ⟨0, []⟩], 0, 0, true, 0, 0, []⟩ [7]
      (by decide)).1⟩

/-- C5: after a single acquire of a message smaller than a packet, a tick on
an idle (negative) counter changes nothing; the first tick merely advances
the counter from 0 to 1; the second tick produces exactly one finalization
and exactly one ready-to-read signal and returns the counter to negative;
and a third tick changes nothing further. -/
theorem C5_autoflush_two_ticks (cfg : Cfg) (numbered : Bool) (m : List Nat)
    (hpc : 0 < cfg.pc) (hm : 0 < List.length m)
    (hms : List.length m < PACKET_SIZE) :
    (∀ t : kbase_tlstream, t.autoflush_counter < 0 → autoflush_timer_tick t = t) ∧
    (kbase_tlstream_msgbuf_acquire (kbase_tlstream_init cfg numbered)
      m).autoflush_counter = 0 ∧
    autoflush_timer_tick
        (kbase_tlstream_msgbuf_acquire (kbase_tlstream_init cfg numbered) m) =
      { kbase_tlstream_msgbuf_acquire (kbase_tlstream_init cfg numbered) m with
        autoflush_counter := 1 } ∧
    (autoflush_timer_tick (autoflush_timer_tick
        (kbase_tlstream_msgbuf_acquire (kbase_tlstream_init cfg numbered)
          m))).log.length =
      (kbase_tlstream_msgbuf_acquire (kbase_tlstream_init cfg numbered)
        m).log.length + 1 ∧
    (autoflush_timer_tick (autoflush_timer_tick
        (kbase_tlstream_msgbuf_acquire (kbase_tlstream_init cfg numbered)
          m))).ready_signals =
      (kbase_tlstream_msgbuf_acquire (kbase_tlstream_init cfg numbered)
        m).ready_signals + 1 ∧
    (autoflush_timer_tick (autoflush_timer_tick
        (kbase_tlstream_msgbuf_acquire (kbase_tlstream_init cfg numbered)
          m))).autoflush_counter < 0 ∧
    autoflush_timer_tick (autoflush_timer_tick (autoflush_timer_tick
        (kbase_tlstream_msgbuf_acquire (kbase_tlstream_init cfg numbered) m))) =
      autoflush_timer_tick (autoflush_timer_tick
        (kbase_tlstream_msgbuf_acquire (kbase_tlstream_init cfg numbered) m)) := by
  have hwb0 := write_buffer_init cfg numbered hpc
  have hacq : kbase_tlstream_msgbuf_acquire (kbase_tlstream_init cfg numbered) m =
      msgbuf_reserve (kbase_tlstream_init cfg numbered) m := by
    unfold kbase_tlstream_msgbuf_acquire
    rw [hwb0]
    exact if_neg (by show ¬(PACKET_SIZE < 0 + List.length m); omega)
  have hlen0 : (kbase_tlstream_init cfg numbered).buffer.length =
      (kbase_tlstream_init cfg numbered).cfg.pc := by
    show (List.replicate cfg.pc (⟨0, []⟩ : Slot)).length = cfg.pc
    simp
  have hwb1 : write_buffer (msgbuf_reserve (kbase_tlstream_init cfg numbered) m) =
      ⟨List.length m, [m]⟩ := by
    rw [write_buffer_reserve _ _ hpc hlen0, hwb0]
    simp
  have ht1 : autoflush_timer_tick
      (msgbuf_reserve (kbase_tlstream_init cfg numbered) m) =
      { msgbuf_reserve (kbase_tlstream_init cfg numbered) m with
        autoflush_counter := 1 } :=
    tick_of_zero rfl
  have hwb2 : write_buffer
      ({ msgbuf_reserve (kbase_tlstream_init cfg numbered) m with
        autoflush_counter := 1 }) = ⟨List.length m, [m]⟩ := hwb1
  have hfl2 : kbase_tlstream_flush_stream
      ({ msgbuf_reserve (kbase_tlstream_init cfg numbered) m with
        autoflush_counter := 1 }) =
      { msgbuf_submit ({ msgbuf_reserve (kbase_tlstream_init cfg numbered) m with
          autoflush_counter := 1 }) with
        ready_signals :=
          (msgbuf_reserve (kbase_tlstream_init cfg numbered) m).ready_signals + 1 } :=
    flush_of_pos (by rw [hwb2]; exact hm)
  have ht2 : autoflush_timer_tick
      ({ msgbuf_reserve (kbase_tlstream_init cfg numbered) m with
        autoflush_counter := 1 }) =
      { kbase_tlstream_flush_stream
          ({ msgbuf_reserve (kbase_tlstream_init cfg numbered) m with
            autoflush_counter := 1 }) with autoflush_counter := -1 } :=
    tick_of_warning rfl
  refine ⟨fun t ht => tick_of_neg ht, ?_, ?_, ?_, ?_, ?_, ?_⟩
  · rw [hacq]
    rfl
  · rw [hacq, ht1]
  · rw [hacq, ht1, ht2, hfl2]
    simp [submit_log]
  · rw [hacq, ht1, ht2, hfl2]
  · rw [hacq, ht1, ht2]
    show (-1 : Int) < 0
    norm_num
  · rw [hacq, ht1, ht2]
    exact tick_of_neg (by show (-1 : Int) < 0; norm_num)

/-- Witness for C5: concrete two-tick idle flush of a one-byte message. -/
theorem C5_autoflush_two_ticks_witness :
    (0 < (⟨2, 32⟩ : Cfg).pc) ∧ (0 < List.length [9]) ∧
    (List.length [9] < PACKET_SIZE) ∧
    (kbase_tlstream_msgbuf_acquire (kbase_tlstream_init ⟨2, 32⟩ true)
      [9]).autoflush_counter = 0 :=
  ⟨by decide, by decide, by decide,
    (C5_autoflush_two_ticks ⟨2, 32⟩ true [9] (by decide) (by decide)
      (by decide)).2.1⟩

/-- C6: a flush of a stream whose active buffer holds 0 bytes changes
nothing — in particular it is idempotent. -/
theorem C6_flush_empty (s : kbase_tlstream) (h : (write_buffer s).size = 0) :
    kbase_tlstream_flush_stream s = s ∧
    kbase_tlstream_flush_stream (kbase_tlstream_flush_stream s) = s := by
  have h1 := flush_of_empty h
  exact ⟨h1, by rw [h1, h1]⟩

/-- Witness for C6: flushing a freshly constructed stream is a no-op. -/
theorem C6_flush_empty_witness :
    ((write_buffer (kbase_tlstream_init ⟨2, 32⟩ true)).size = 0) ∧
    kbase_tlstream_flush_stream (kbase_tlstream_init ⟨2, 32⟩ true) =
      kbase_tlstream_init ⟨2, 32⟩ true :=
  ⟨by decide, (C6_flush_empty (kbase_tlstream_init ⟨2, 32⟩ true) (by decide)).1⟩

/-- C7: after reset both cursors are 0, every buffer holds 0 bytes, the
autoflush counter is negative (IDLE), and the first packet finalized after
the reset carries sequence number 0 when the stream is numbered. -/
theorem C7_reset (s : kbase_tlstream) (ops : List Op) (p : Packet)
    (hp : (run (kbase_tlstream_reset s) ops).log[0]? = some p) :
    (kbase_tlstream_reset s).wbi = 0 ∧
    (kbase_tlstream_reset s).rbi = 0 ∧
    (kbase_tlstream_reset s).autoflush_counter < 0 ∧
    (∀ sl ∈ (kbase_tlstream_reset s).buffer, sl.size = 0) ∧
    p.seq = (if s.numbered then some 0 else none) := by
  refine ⟨rfl, rfl, by show (-1 : Int) < 0; norm_num, ?_, ?_⟩
  · intro sl hsl
    have hsl2 : sl ∈ List.replicate s.cfg.pc (⟨0, []⟩ : Slot) := hsl
    rw [List.eq_of_mem_replicate hsl2]
  · have h := run_SeqInv ops (reset_SeqInv s)
    have hp2 := h.2 0 p hp
    have hn : (run (kbase_tlstream_reset s) ops).numbered = s.numbered := by
      rw [run_numbered]
      rfl
    rw [hn] at hp2
    exact hp2

/-- Witness for C7: reset of a fresh stream, then one acquire and one
flush; the first finalized packet carries sequence number 0. -/
theorem C7_reset_witness :
    ((run (kbase_tlstream_reset (kbase_tlstream_init ⟨1, 32⟩ true))
        [Op.acquire [5], Op.flush]).log[0]? = some ⟨some 0, [[5]], 1⟩) ∧
    (⟨some 0, [[5]], 1⟩ : Packet).seq = some 0 :=
  ⟨by decide,
    (C7_reset (kbase_tlstream_init ⟨1, 32⟩ true) [Op.acquire [5], Op.flush]
      ⟨some 0, [[5]], 1⟩ (by decide)).2.2.2.2⟩

/-- C8: under the caller's contract `msg_size ≤ PACKET_SIZE - header_size`
the acquire never fails — the assertion does not trip, the checked acquire
returns the reserved region — and the returned region lies entirely inside
the packet. -/
theorem C8_acquire_total (s : kbase_tlstream) (m : List Nat)
    (h : List.length m ≤ PACKET_SIZE - s.cfg.hs) :
    msgbuf_acquire_checked s m =
      some (acquire_offset s (List.length m), kbase_tlstream_msgbuf_acquire s m) ∧
    acquire_offset s (List.length m) + List.length m ≤ PACKET_SIZE := by
  constructor
  · unfold msgbuf_acquire_checked
    rw [if_pos h]
  · have hps : List.length m ≤ PACKET_SIZE := le_trans h (Nat.sub_le _ _)
    unfold acquire_offset
    split
    · omega
    · omega

/-- Witness for C8 at a fresh stream and a three-byte message. -/
theorem C8_acquire_total_witness :
    (List.length [1, 2, 3] ≤
      PACKET_SIZE - (kbase_tlstream_init ⟨2, 32⟩ true).cfg.hs) ∧
    msgbuf_acquire_checked (kbase_tlstream_init ⟨2, 32⟩ true) [1, 2, 3] =
      some (acquire_offset (kbase_tlstream_init ⟨2, 32⟩ true) (List.length [1, 2, 3]),
        kbase_tlstream_msgbuf_acquire (kbase_tlstream_init ⟨2, 32⟩ true) [1, 2, 3]) :=
  ⟨by decide,
    (C8_acquire_total (kbase_tlstream_init ⟨2, 32⟩ true) [1, 2, 3] (by decide)).1⟩

/-- C9: the capacity constants are fixed at compile time — packets hold
`PACKET_SIZE = 4096` bytes, the ring holds 64 packets under a job-dump or
vector-dump configuration and 32 otherwise — and every operation preserves
the stream's configuration and its ring length. -/
theorem C9_capacity_constants (s : kbase_tlstream) (op : Op)
    (hlen : s.buffer.length = s.cfg.pc) :
    PACKET_SIZE = 4096 ∧
    PACKET_COUNT true = 64 ∧
    PACKET_COUNT false = 32 ∧
    (step s op).cfg = s.cfg ∧
    (step s op).buffer.length = s.cfg.pc :=
  ⟨rfl, rfl, rfl, step_cfg s op, step_buffer_length op hlen⟩

/-- Witness for C9 at a fresh stream and a release step. -/
theorem C9_capacity_constants_witness :
    ((kbase_tlstream_init ⟨2, 32⟩ true).buffer.length =
      (kbase_tlstream_init ⟨2, 32⟩ true).cfg.pc) ∧
    (step (kbase_tlstream_init ⟨2, 32⟩ true) Op.release).cfg =
      (kbase_tlstream_init ⟨2, 32⟩ true).cfg :=
  ⟨by decide,
    (C9_capacity_constants (kbase_tlstream_init ⟨2, 32⟩ true) Op.release
      (by decide)).2.2.2.1⟩

/-- C10: the cursors are 32-bit counters: a cursor advance is computed
modulo 2^32, the unsigned fullness difference is computed modulo 2^32, and
after 2^32 advances a cursor value wraps around to itself rather than
growing without bound. -/
theorem C10_cursor_wrap32 (x w r n : Nat) (hx : x < UINT32_MOD) :
    inc32 x = (x + 1) % UINT32_MOD ∧
    inc32^[n] x = (x + n) % UINT32_MOD ∧
    inc32^[UINT32_MOD] x = x ∧
    inc32 (UINT32_MOD - 1) = 0 ∧
    sub32 w r < UINT32_MOD := by
  have hxm : x % UINT32_MOD = x := Nat.mod_eq_of_lt hx
  refine ⟨rfl, ?_, ?_, ?_, ?_⟩
  · have h := inc32_iterate n x
    rw [hxm] at h
    exact h
  · have h := inc32_iterate UINT32_MOD x
    rw [hxm] at h
    rw [h, Nat.add_mod_right, hxm]
  · show (UINT32_MOD - 1 + 1) % UINT32_MOD = 0
    have : UINT32_MOD - 1 + 1 = UINT32_MOD := Nat.succ_pred_eq_of_pos UINT32_MOD_pos
    rw [this, Nat.mod_self]
  · exact Nat.mod_lt _ UINT32_MOD_pos

/-- Witness for C10 at the largest 32-bit cursor value. -/
theorem C10_cursor_wrap32_witness :
    (4294967295 < UINT32_MOD) ∧
    inc32 4294967295 = (4294967295 + 1) % UINT32_MOD :=
  ⟨by decide, (C10_cursor_wrap32 4294967295 5 7 3 (by decide)).1⟩

end Tlstream
